import Mathlib

/-! Package `tracing` (src/tracing.go).

A shallow embedding of the three exported operations of the package,
`Initialize`, `Start` and `Finalize`, over

* the six package-level variables (`tp`, `projectID`, `serviceName`,
  `deploymentEnvironment`, `tracerName`, `timeout`),
* the two process-wide OpenTelemetry defaults the package writes
  (`otel.SetTracerProvider`, `otel.SetTextMapPropagator`),
* the ordered record of every call made into the OpenTelemetry SDK and the
  Cloud Trace exporter.

The SDK and the exporter are external collaborators.  What they return is a
parameter of the model (`SDK`); what the package passes to them, and what it
does with their results, is translated from the source.
-/

namespace Tracing

/-! ## Values of the collaborating libraries -/

/-- A `context.Context` value, identified by a token. -/
structure Context where
  token : Nat
  deriving DecidableEq, Repr

/-- A non-nil Go `error` value. -/
structure GoError where
  msg : String
  deriving DecidableEq, Repr

/-- The `*texporter.Exporter` returned by `texporter.New`. -/
structure Exporter where
  handle : Nat
  deriving DecidableEq, Repr

/-- The `*resource.Resource` returned by `resource.New`. -/
structure Resource where
  handle : Nat
  deriving DecidableEq, Repr

/-- The `trace.Tracer` returned by `(*TracerProvider).Tracer`. -/
structure Tracer where
  handle : Nat
  deriving DecidableEq, Repr

/-- The `trace.Span` returned by `Tracer.Start`. -/
structure Span where
  handle : Nat
  deriving DecidableEq, Repr

/-- Go `int64`: the smallest value. -/
def minInt64 : Int := -(2 ^ 63)

/-- Go `int64`: the largest value. -/
def maxInt64 : Int := 2 ^ 63 - 1

/-- Result of an `int64` operation whose mathematical value is `x`:
two's-complement wrap-around into `[-2^63, 2^63)`. -/
def wrapInt64 (x : Int) : Int := (x + 2 ^ 63) % 2 ^ 64 - 2 ^ 63

/-- The constant `time.Second`: a `time.Duration` (an `int64` count of nanoseconds). -/
def Second : Int := 1000000000

/-- The expression `time.Duration(timeout)*time.Second` (tracing.go:52):
the conversion keeps the `int64` value, the product is an `int64` product. -/
def durationOfSeconds (timeout : Int) : Int := wrapInt64 (timeout * Second)

/-- Values of `texporter.Option` the package builds:
`texporter.WithProjectID(id)` and `texporter.WithTimeout(d)`, `d` in nanoseconds. -/
inductive ExporterOption where
  | WithProjectID (projectID : String)
  | WithTimeout (d : Int)
  deriving DecidableEq, Repr

/-- Resource detectors; `gcp` is `gcp.NewDetector()`. -/
inductive Detector where
  | gcp
  | other (name : String)
  deriving DecidableEq, Repr

/-- An `attribute.KeyValue` with a string value, `key.String(value)`. -/
structure KeyValue where
  key : String
  value : String
  deriving DecidableEq, Repr

/-- The constant `semconv.ServiceNameKey` of semconv v1.7.0. -/
def ServiceNameKey : String := "service.name"

/-- The constant `semconv.DeploymentEnvironmentKey` of semconv v1.7.0. -/
def DeploymentEnvironmentKey : String := "deployment.environment"

/-- Values of `resource.Option` the package builds. -/
inductive ResourceOption where
  | WithDetectors (detectors : List Detector)
  | WithAttributes (attributes : List KeyValue)
  deriving DecidableEq, Repr

/-- Samplers of `sdktrace`; `AlwaysSample` is `sdktrace.AlwaysSample()`. -/
inductive Sampler where
  | AlwaysSample
  | NeverSample
  deriving DecidableEq, Repr

/-- Values of `sdktrace.TracerProviderOption` the package builds. -/
inductive TracerProviderOption where
  | WithSampler (s : Sampler)
  | WithBatcher (e : Exporter)
  | WithResource (r : Resource)
  deriving DecidableEq, Repr

/-- A constructed `*sdktrace.TracerProvider`: the address of the allocation
and the options it was constructed with. -/
structure TracerProvider where
  addr : Nat
  opts : List TracerProviderOption
  deriving DecidableEq, Repr

/-- The two propagators the package names:
`propagation.TraceContext{}` and `propagation.Baggage{}`. -/
inductive Propagator where
  | TraceContext
  | Baggage
  deriving DecidableEq, Repr

/-- A `propagation.TextMapPropagator` as built by
`propagation.NewCompositeTextMapPropagator(p...)`: its members in order. -/
structure TextMapPropagator where
  members : List Propagator
  deriving DecidableEq, Repr

/-- `propagation.NewCompositeTextMapPropagator`. -/
def NewCompositeTextMapPropagator (p : List Propagator) : TextMapPropagator := ⟨p⟩

/-- One call into a collaborating library, with the arguments passed. -/
inductive Call where
  | texporterNew (opts : List ExporterOption)
  | resourceNew (ctx : Context) (opts : List ResourceOption)
  | NewTracerProvider (opts : List TracerProviderOption)
  | SetTracerProvider (p : TracerProvider)
  | SetTextMapPropagator (p : TextMapPropagator)
  | Tracer (p : TracerProvider) (name : String)
  | TracerStart (t : Tracer) (ctx : Context) (spanName : String)
  | Shutdown (p : TracerProvider) (ctx : Context)
  deriving DecidableEq, Repr

/-- Whether a call is `texporter.New`. -/
def Call.isExporterNew : Call → Bool
  | .texporterNew _ => true
  | _ => false

/-- Whether a call is `resource.New`. -/
def Call.isResourceNew : Call → Bool
  | .resourceNew _ _ => true
  | _ => false

/-- Whether a call is `sdktrace.NewTracerProvider`. -/
def Call.isNewTracerProvider : Call → Bool
  | .NewTracerProvider _ => true
  | _ => false

/-- Whether a call is `otel.SetTracerProvider` or `otel.SetTextMapPropagator`. -/
def Call.isGlobalSet : Call → Bool
  | .SetTracerProvider _ => true
  | .SetTextMapPropagator _ => true
  | _ => false

/-- Whether a call is `(*TracerProvider).Shutdown`. -/
def Call.isShutdown : Call → Bool
  | .Shutdown _ _ => true
  | _ => false

/-- What the collaborating libraries answer.  Each answer may depend on the
arguments and on every call made before (first argument), so that two calls
with equal arguments may be answered differently.

* `texporterNew` is `texporter.New(opts...)`, `(exporter, err)`;
* `resourceNew` is `resource.New(ctx, opts...)`, `(res, err)`;
* `providerTracer` is `(*TracerProvider).Tracer(name)` on a non-nil provider;
* `tracerStart` is `Tracer.Start(ctx, name)`, `(derived context, span)`;
* `providerShutdown` is `(*TracerProvider).Shutdown(ctx)`, `none` for a nil error. -/
structure SDK where
  texporterNew : List Call → List ExporterOption → Except GoError Exporter
  resourceNew : List Call → Context → List ResourceOption → Except GoError Resource
  providerTracer : List Call → TracerProvider → String → Tracer
  tracerStart : List Call → Tracer → Context → String → Context × Span
  providerShutdown : List Call → TracerProvider → Context → Option GoError

/-! ## The package -/

/-- The type `Config` (tracing.go:26-32); `TimeoutInSeconds` is an `int64`. -/
structure Config where
  ProjectID : String
  TracerName : String
  ServiceName : String
  DeploymentEnvironment : String
  TimeoutInSeconds : Int
  deriving DecidableEq, Repr

/-- The package-level variables (tracing.go:18-23), `tp = none` for the nil
pointer, together with the process-wide OpenTelemetry defaults
(`none`: never set) and the calls made so far, oldest first. -/
structure State where
  tp : Option TracerProvider
  projectID : String
  serviceName : String
  deploymentEnvironment : String
  tracerName : String
  timeout : Int
  globalTracerProvider : Option TracerProvider
  globalPropagator : Option TextMapPropagator
  calls : List Call
  deriving DecidableEq, Repr

/-- The state at process start: every package-level variable holds its zero value. -/
def State.initial : State :=
  { tp := none, projectID := "", serviceName := "", deploymentEnvironment := "",
    tracerName := "", timeout := 0,
    globalTracerProvider := none, globalPropagator := none, calls := [] }

/-- The calls made between state `s` and a later state `s'`. -/
def callsBetween (s s' : State) : List Call := s'.calls.drop s.calls.length

/-- A run-time panic of the Go program. -/
inductive Panic where
  | nilPointerDereference
  deriving DecidableEq, Repr

/-- Lines 43-49 of `Initialize`: the config, when non-nil, is copied into the
package-level variables. -/
def storeConfig (c : Option Config) (s : State) : State :=
  match c with
  | some c =>
    { s with
      projectID := c.ProjectID
      serviceName := c.ServiceName
      deploymentEnvironment := c.DeploymentEnvironment
      tracerName := c.TracerName
      timeout := c.TimeoutInSeconds }
  | none => s

/-- Lines 42 and 50-53 of `Initialize`: the exporter options, built from the
package-level variables. -/
def exporterOptions (s : State) : List ExporterOption :=
  let options : List ExporterOption := []
  let options := options ++ [ExporterOption.WithProjectID s.projectID]
  if s.timeout > 0 then
    options ++ [ExporterOption.WithTimeout (durationOfSeconds s.timeout)]
  else
    options

/-- Lines 59-64 of `Initialize`: the resource options, built from the
package-level variables. -/
def resourceOptions (s : State) : List ResourceOption :=
  [ ResourceOption.WithDetectors [Detector.gcp],
    ResourceOption.WithAttributes
      [ ⟨ServiceNameKey, s.serviceName⟩,
        ⟨DeploymentEnvironmentKey, s.deploymentEnvironment⟩ ] ]

/-- The address `sdktrace.NewTracerProvider` allocates at: one not used by
any provider constructed before. -/
def freshAddr (calls : List Call) : Nat := calls.countP Call.isNewTracerProvider

/-- The function `Initialize` (tracing.go:41-78).  Returns the Go `error`
(`none` for nil) and the state after the call. -/
def Initialize (sdk : SDK) (ctx : Context) (c : Option Config) (s : State) :
    Option GoError × State :=
  let s := storeConfig c s
  let options := exporterOptions s
  let r := sdk.texporterNew s.calls options
  let s := { s with calls := s.calls ++ [Call.texporterNew options] }
  match r with
  | .error err => (some err, s)
  | .ok exporter =>
    let ropts := resourceOptions s
    let r := sdk.resourceNew s.calls ctx ropts
    let s := { s with calls := s.calls ++ [Call.resourceNew ctx ropts] }
    match r with
    | .error err => (some err, s)
    | .ok res =>
      let popts :=
        [ TracerProviderOption.WithSampler Sampler.AlwaysSample,
          TracerProviderOption.WithBatcher exporter,
          TracerProviderOption.WithResource res ]
      let p : TracerProvider := ⟨freshAddr s.calls, popts⟩
      let s := { s with tp := some p, calls := s.calls ++ [Call.NewTracerProvider popts] }
      let s := { s with globalTracerProvider := s.tp,
                        calls := s.calls ++ [Call.SetTracerProvider p] }
      let pr := NewCompositeTextMapPropagator [Propagator.TraceContext, Propagator.Baggage]
      let s := { s with globalPropagator := some pr,
                        calls := s.calls ++ [Call.SetTextMapPropagator pr] }
      (none, s)

/-- The function `Start` (tracing.go:35-38).  `tp.Tracer(tracerName)` is a
method call through the pointer `tp` with no nil test before it; the SDK
method reads the fields of its receiver, so with `tp == nil` the call is a
nil pointer dereference.  Otherwise the span is returned and the derived
context is dropped. -/
def Start (sdk : SDK) (ctx : Context) (name : String) (s : State) :
    Except Panic (Span × State) :=
  match s.tp with
  | none => .error Panic.nilPointerDereference
  | some p =>
    let tracer := sdk.providerTracer s.calls p s.tracerName
    let s := { s with calls := s.calls ++ [Call.Tracer p s.tracerName] }
    let r := sdk.tracerStart s.calls tracer ctx name
    let s := { s with calls := s.calls ++ [Call.TracerStart tracer ctx name] }
    .ok (r.2, s)

/-- The function `Finalize` (tracing.go:81-85).  The error `Shutdown`
returns is not bound to anything. -/
def Finalize (sdk : SDK) (ctx : Context) (s : State) : State :=
  match s.tp with
  | some p =>
    let _err := sdk.providerShutdown s.calls p ctx
    { s with calls := s.calls ++ [Call.Shutdown p ctx] }
  | none => s

/-! ## Collaborators used at concrete inputs -/

/-- Collaborators that always succeed; handles count the calls made before. -/
def sdkAccepting : SDK :=
  { texporterNew := fun h _ => .ok ⟨h.length⟩
    resourceNew := fun h _ _ => .ok ⟨h.length⟩
    providerTracer := fun h _ _ => ⟨h.length⟩
    tracerStart := fun h _ c _ => (⟨c.token + 1⟩, ⟨h.length⟩)
    providerShutdown := fun _ _ _ => none }

/-- Collaborators whose exporter rejects an empty project id. -/
def sdkRejectingEmptyProject : SDK :=
  { sdkAccepting with
    texporterNew := fun h opts =>
      if opts.contains (ExporterOption.WithProjectID "") then
        .error ⟨"project id is empty"⟩
      else .ok ⟨h.length⟩ }

/-- Collaborators whose resource construction fails. -/
def sdkResourceFailing : SDK :=
  { sdkAccepting with
    resourceNew := fun _ _ _ => .error ⟨"detector failed"⟩
    providerShutdown := fun _ _ _ => some ⟨"shutdown failed"⟩ }

/-- The config of the spec's concrete scenario. -/
def cfgScenario : Config :=
  { ProjectID := "proj1", TracerName := "svc", ServiceName := "svc",
    DeploymentEnvironment := "test", TimeoutInSeconds := 5 }

/-- A config with an empty project id. -/
def cfgEmptyProject : Config :=
  { ProjectID := "", TracerName := "other", ServiceName := "svc2",
    DeploymentEnvironment := "prod", TimeoutInSeconds := 0 }

/-- A config whose timeout in seconds does not fit an `int64` count of nanoseconds. -/
def cfgHugeTimeout : Config :=
  { ProjectID := "proj1", TracerName := "svc", ServiceName := "svc",
    DeploymentEnvironment := "test", TimeoutInSeconds := 9223372037 }

/-- A context. -/
def ctx0 : Context := ⟨0⟩

/-- Another context. -/
def ctx1 : Context := ⟨1⟩

/-- The state after `Initialize(ctx0, &cfgScenario)` succeeded at process start,
with an exporter that rejects the empty project id. -/
def stateInitialized : State :=
  (Initialize sdkRejectingEmptyProject ctx0 (some cfgScenario) State.initial).2

/-! ## Auxiliary facts -/

/-- Copying the config makes no call. -/
theorem storeConfig_calls (c : Option Config) (s : State) :
    (storeConfig c s).calls = s.calls := by
  cases c <;> rfl

/-- Copying the config does not touch the provider handle. -/
theorem storeConfig_tp (c : Option Config) (s : State) :
    (storeConfig c s).tp = s.tp := by
  cases c <;> rfl

/-- The calls between two states, when the later record extends the earlier one. -/
theorem callsBetween_of_append (s s' : State) (xs : List Call)
    (h : s'.calls = s.calls ++ xs) : callsBetween s s' = xs := by
  simp [callsBetween, h]

/-- Copying the config does not touch the process-wide tracer provider. -/
theorem storeConfig_globalTracerProvider (c : Option Config) (s : State) :
    (storeConfig c s).globalTracerProvider = s.globalTracerProvider := by
  cases c <;> rfl

/-- Copying the config does not touch the process-wide propagator. -/
theorem storeConfig_globalPropagator (c : Option Config) (s : State) :
    (storeConfig c s).globalPropagator = s.globalPropagator := by
  cases c <;> rfl

/-- The state `Initialize` leaves when the exporter cannot be built. -/
theorem Initialize_of_exporter_error (sdk : SDK) (ctx : Context) (c : Option Config)
    (s : State) (err : GoError)
    (h : sdk.texporterNew s.calls (exporterOptions (storeConfig c s)) = .error err) :
    Initialize sdk ctx c s =
      (some err, { storeConfig c s with
        calls := s.calls ++ [Call.texporterNew (exporterOptions (storeConfig c s))] }) := by
  simp only [Initialize, storeConfig_calls, h]

/-- The state `Initialize` leaves when the exporter is built and the resource is not. -/
theorem Initialize_of_resource_error (sdk : SDK) (ctx : Context) (c : Option Config)
    (s : State) (x : Exporter) (err : GoError)
    (h : sdk.texporterNew s.calls (exporterOptions (storeConfig c s)) = .ok x)
    (hr : sdk.resourceNew (s.calls ++ [Call.texporterNew (exporterOptions (storeConfig c s))])
      ctx (resourceOptions (storeConfig c s)) = .error err) :
    Initialize sdk ctx c s =
      (some err, { storeConfig c s with
        calls := s.calls ++ [Call.texporterNew (exporterOptions (storeConfig c s)),
          Call.resourceNew ctx (resourceOptions (storeConfig c s))] }) := by
  simp only [Initialize, storeConfig_calls, h, resourceOptions] at hr ⊢
  simp [hr]

/-- The state `Initialize` leaves when both the exporter and the resource are built. -/
theorem Initialize_of_ok (sdk : SDK) (ctx : Context) (c : Option Config)
    (s : State) (x : Exporter) (y : Resource)
    (h : sdk.texporterNew s.calls (exporterOptions (storeConfig c s)) = .ok x)
    (hr : sdk.resourceNew (s.calls ++ [Call.texporterNew (exporterOptions (storeConfig c s))])
      ctx (resourceOptions (storeConfig c s)) = .ok y) :
    Initialize sdk ctx c s =
      (none, { storeConfig c s with
        tp := some ⟨freshAddr s.calls,
          [ TracerProviderOption.WithSampler Sampler.AlwaysSample,
            TracerProviderOption.WithBatcher x,
            TracerProviderOption.WithResource y ]⟩
        globalTracerProvider := some ⟨freshAddr s.calls,
          [ TracerProviderOption.WithSampler Sampler.AlwaysSample,
            TracerProviderOption.WithBatcher x,
            TracerProviderOption.WithResource y ]⟩
        globalPropagator := some ⟨[Propagator.TraceContext, Propagator.Baggage]⟩
        calls := s.calls ++
          [ Call.texporterNew (exporterOptions (storeConfig c s)),
            Call.resourceNew ctx (resourceOptions (storeConfig c s)),
            Call.NewTracerProvider
              [ TracerProviderOption.WithSampler Sampler.AlwaysSample,
                TracerProviderOption.WithBatcher x,
                TracerProviderOption.WithResource y ],
            Call.SetTracerProvider ⟨freshAddr s.calls,
              [ TracerProviderOption.WithSampler Sampler.AlwaysSample,
                TracerProviderOption.WithBatcher x,
                TracerProviderOption.WithResource y ]⟩,
            Call.SetTextMapPropagator ⟨[Propagator.TraceContext, Propagator.Baggage]⟩ ] }) := by
  simp only [Initialize, storeConfig_calls, h, resourceOptions] at hr ⊢
  simp [hr, freshAddr, List.countP_append, List.countP_cons, Call.isNewTracerProvider,
    NewCompositeTextMapPropagator]

/-- The first call `Initialize` makes is `texporter.New`, with the options
built from the variables as they are after the config was copied. -/
theorem Initialize_first_call (sdk : SDK) (ctx : Context) (c : Option Config) (s : State) :
    (callsBetween s (Initialize sdk ctx c s).2).head?
      = some (Call.texporterNew (exporterOptions (storeConfig c s))) := by
  cases he : sdk.texporterNew s.calls (exporterOptions (storeConfig c s)) with
  | error e1 =>
    have hI := Initialize_of_exporter_error sdk ctx c s e1 he
    rw [callsBetween_of_append s _ _ (by rw [hI])]
    rfl
  | ok x =>
    cases hr : sdk.resourceNew
        (s.calls ++ [Call.texporterNew (exporterOptions (storeConfig c s))])
        ctx (resourceOptions (storeConfig c s)) with
    | error e2 =>
      have hI := Initialize_of_resource_error sdk ctx c s x e2 he hr
      rw [callsBetween_of_append s _ _ (by rw [hI])]
      rfl
    | ok y =>
      have hI := Initialize_of_ok sdk ctx c s x y he hr
      rw [callsBetween_of_append s _ _ (by rw [hI])]
      rfl

/-- After `Initialize`, with success or with an error, the five configuration
variables are as the copy of the config left them. -/
theorem Initialize_config_fields (sdk : SDK) (ctx : Context) (c : Option Config) (s : State) :
    (Initialize sdk ctx c s).2.projectID = (storeConfig c s).projectID
    ∧ (Initialize sdk ctx c s).2.serviceName = (storeConfig c s).serviceName
    ∧ (Initialize sdk ctx c s).2.deploymentEnvironment = (storeConfig c s).deploymentEnvironment
    ∧ (Initialize sdk ctx c s).2.tracerName = (storeConfig c s).tracerName
    ∧ (Initialize sdk ctx c s).2.timeout = (storeConfig c s).timeout := by
  cases he : sdk.texporterNew s.calls (exporterOptions (storeConfig c s)) with
  | error e1 =>
    rw [Initialize_of_exporter_error sdk ctx c s e1 he]
    exact ⟨rfl, rfl, rfl, rfl, rfl⟩
  | ok x =>
    cases hr : sdk.resourceNew
        (s.calls ++ [Call.texporterNew (exporterOptions (storeConfig c s))])
        ctx (resourceOptions (storeConfig c s)) with
    | error e2 =>
      rw [Initialize_of_resource_error sdk ctx c s x e2 he hr]
      exact ⟨rfl, rfl, rfl, rfl, rfl⟩
    | ok y =>
      rw [Initialize_of_ok sdk ctx c s x y he hr]
      exact ⟨rfl, rfl, rfl, rfl, rfl⟩

/-- A successful `Initialize` leaves a provider in `tp` and the same one as
the process-wide tracer provider. -/
theorem Initialize_ok_provider (sdk : SDK) (ctx : Context) (c : Option Config) (s : State)
    (h : (Initialize sdk ctx c s).1 = none) :
    ∃ p, (Initialize sdk ctx c s).2.tp = some p
      ∧ (Initialize sdk ctx c s).2.globalTracerProvider = some p := by
  cases he : sdk.texporterNew s.calls (exporterOptions (storeConfig c s)) with
  | error e1 =>
    rw [Initialize_of_exporter_error sdk ctx c s e1 he] at h
    cases h
  | ok x =>
    cases hr : sdk.resourceNew
        (s.calls ++ [Call.texporterNew (exporterOptions (storeConfig c s))])
        ctx (resourceOptions (storeConfig c s)) with
    | error e2 =>
      rw [Initialize_of_resource_error sdk ctx c s x e2 he hr] at h
      cases h
    | ok y =>
      rw [Initialize_of_ok sdk ctx c s x y he hr]
      exact ⟨_, rfl, rfl⟩

/-- The exporter options for a non-nil config. -/
theorem exporterOptions_storeConfig_some (c : Config) (s : State) :
    exporterOptions (storeConfig (some c) s) =
      if 0 < c.TimeoutInSeconds then
        [ ExporterOption.WithProjectID c.ProjectID,
          ExporterOption.WithTimeout (durationOfSeconds c.TimeoutInSeconds) ]
      else [ExporterOption.WithProjectID c.ProjectID] := by
  simp only [exporterOptions, storeConfig, gt_iff_lt, List.nil_append]
  split <;> rfl

/-- An `int64` product whose mathematical value fits is that value. -/
theorem wrapInt64_of_fits (x : Int) (hlo : minInt64 ≤ x) (hhi : x ≤ maxInt64) :
    wrapInt64 x = x := by
  simp only [minInt64, maxInt64, wrapInt64] at *
  omega

/-- The result of an `int64` operation is an `int64`. -/
theorem wrapInt64_range (x : Int) : minInt64 ≤ wrapInt64 x ∧ wrapInt64 x ≤ maxInt64 := by
  simp only [minInt64, maxInt64, wrapInt64]
  omega

/-- What `Start` returns, and the state it leaves, when a provider is installed. -/
theorem Start_of_some (sdk : SDK) (ctx : Context) (n : String) (s : State)
    (p : TracerProvider) (h : s.tp = some p) :
    Start sdk ctx n s
      = .ok
        ((sdk.tracerStart (s.calls ++ [Call.Tracer p s.tracerName])
            (sdk.providerTracer s.calls p s.tracerName) ctx n).2,
         { s with
           calls := s.calls ++
             [ Call.Tracer p s.tracerName,
               Call.TracerStart (sdk.providerTracer s.calls p s.tracerName) ctx n ] }) := by
  simp only [Start, h, List.append_assoc, List.singleton_append]

/-! ## Initialize: which errors it returns -/

/-- C1: `Initialize` returns an error exactly when exporter construction
fails or, the exporter being built, resource construction fails.  The error
returned is the very value the failing collaborator produced; when both
succeed the result is nil.  Each call of `Initialize` constructs the exporter
once, and makes no resource construction call when the exporter failed.
Here `e` is the answer of `texporter.New` and `r` the answer of
`resource.New` at the arguments `Initialize` passes. -/
theorem Initialize_error_iff (sdk : SDK) (ctx : Context) (c : Option Config) (s : State) :
    let e := sdk.texporterNew s.calls (exporterOptions (storeConfig c s))
    let r := sdk.resourceNew (s.calls ++ [Call.texporterNew (exporterOptions (storeConfig c s))])
      ctx (resourceOptions (storeConfig c s))
    let out := Initialize sdk ctx c s
    (out.1 ≠ none ↔
      ((∃ err, e = .error err) ∨ ((∃ x, e = .ok x) ∧ ∃ err, r = .error err)))
    ∧ (∀ err, e = .error err →
        out.1 = some err ∧ (callsBetween s out.2).countP Call.isResourceNew = 0)
    ∧ (∀ x err, e = .ok x → r = .error err → out.1 = some err)
    ∧ (∀ x y, e = .ok x → r = .ok y → out.1 = none)
    ∧ (callsBetween s out.2).countP Call.isExporterNew = 1 := by
  intro e r out
  cases he : e with
  | error err =>
    have hI : out = _ := Initialize_of_exporter_error sdk ctx c s err he
    have hc : callsBetween s out.2 = _ := callsBetween_of_append s out.2 _ (by rw [hI])
    refine ⟨?_, ?_, ?_, ?_, ?_⟩
    · simp [hI]
    · intro err' h'
      cases h'
      exact ⟨by rw [hI], by rw [hc]; rfl⟩
    · intro x err' h'
      cases h'
    · intro x y h'
      cases h'
    · rw [hc]; rfl
  | ok x =>
    cases hr : r with
    | error err =>
      have hI : out = _ := Initialize_of_resource_error sdk ctx c s x err he hr
      have hc : callsBetween s out.2 = _ := callsBetween_of_append s out.2 _ (by rw [hI])
      refine ⟨?_, ?_, ?_, ?_, ?_⟩
      · simp [hI]
      · intro err' h'
        cases h'
      · intro x' err' _ h'
        cases h'
        rw [hI]
      · intro x' y _ h'
        cases h'
      · rw [hc]; rfl
    | ok y =>
      have hI : out = _ := Initialize_of_ok sdk ctx c s x y he hr
      have hc : callsBetween s out.2 = _ := callsBetween_of_append s out.2 _ (by rw [hI])
      refine ⟨?_, ?_, ?_, ?_, ?_⟩
      · simp [hI]
      · intro err' h'
        cases h'
      · intro x' err' _ h'
        cases h'
      · intro x' y' _ _
        rw [hI]
      · rw [hc]; rfl

/-- C1 at concrete inputs: an exporter that rejects the empty project id
makes `Initialize` return that error without a resource construction call,
and a failing resource construction is returned as it is. -/
theorem Initialize_error_iff_witness :
    (Initialize sdkRejectingEmptyProject ctx0 (some cfgEmptyProject) State.initial).1
        = some ⟨"project id is empty"⟩
    ∧ (callsBetween State.initial
        (Initialize sdkRejectingEmptyProject ctx0 (some cfgEmptyProject) State.initial).2).countP
          Call.isResourceNew = 0
    ∧ (Initialize sdkResourceFailing ctx0 (some cfgScenario) State.initial).1
        = some ⟨"detector failed"⟩
    ∧ (Initialize sdkAccepting ctx0 (some cfgScenario) State.initial).1 = none :=
  ⟨((Initialize_error_iff sdkRejectingEmptyProject ctx0 (some cfgEmptyProject)
      State.initial).2.1 ⟨"project id is empty"⟩ rfl).1,
   ((Initialize_error_iff sdkRejectingEmptyProject ctx0 (some cfgEmptyProject)
      State.initial).2.1 ⟨"project id is empty"⟩ rfl).2,
   (Initialize_error_iff sdkResourceFailing ctx0 (some cfgScenario)
      State.initial).2.2.1 ⟨0⟩ ⟨"detector failed"⟩ rfl rfl,
   (Initialize_error_iff sdkAccepting ctx0 (some cfgScenario)
      State.initial).2.2.2.1 ⟨0⟩ ⟨1⟩ rfl rfl⟩

/-- C2: when `Initialize` returns an error, the provider handle after the
call is the handle before the call, the process-wide tracer provider and
propagator are what they were, and the call made no `otel.Set...` call and
constructed no provider. -/
theorem Initialize_error_installs_nothing (sdk : SDK) (ctx : Context) (c : Option Config)
    (s : State) (err : GoError) (h : (Initialize sdk ctx c s).1 = some err) :
    (Initialize sdk ctx c s).2.tp = s.tp
    ∧ (Initialize sdk ctx c s).2.globalTracerProvider = s.globalTracerProvider
    ∧ (Initialize sdk ctx c s).2.globalPropagator = s.globalPropagator
    ∧ (callsBetween s (Initialize sdk ctx c s).2).countP Call.isGlobalSet = 0
    ∧ (callsBetween s (Initialize sdk ctx c s).2).countP Call.isNewTracerProvider = 0 := by
  cases he : sdk.texporterNew s.calls (exporterOptions (storeConfig c s)) with
  | error e1 =>
    have hI := Initialize_of_exporter_error sdk ctx c s e1 he
    have hc : callsBetween s (Initialize sdk ctx c s).2 = _ :=
      callsBetween_of_append s _ _ (by rw [hI])
    rw [hc, hI]
    exact ⟨storeConfig_tp c s, storeConfig_globalTracerProvider c s,
      storeConfig_globalPropagator c s, rfl, rfl⟩
  | ok x =>
    cases hr : sdk.resourceNew
        (s.calls ++ [Call.texporterNew (exporterOptions (storeConfig c s))])
        ctx (resourceOptions (storeConfig c s)) with
    | error e2 =>
      have hI := Initialize_of_resource_error sdk ctx c s x e2 he hr
      have hc : callsBetween s (Initialize sdk ctx c s).2 = _ :=
        callsBetween_of_append s _ _ (by rw [hI])
      rw [hc, hI]
      exact ⟨storeConfig_tp c s, storeConfig_globalTracerProvider c s,
        storeConfig_globalPropagator c s, rfl, rfl⟩
    | ok y =>
      rw [Initialize_of_ok sdk ctx c s x y he hr] at h
      cases h

/-- C2 at a concrete input: after a successful `Initialize`, a second call
whose exporter construction fails keeps the provider of the first call. -/
theorem Initialize_error_installs_nothing_witness :
    (Initialize sdkRejectingEmptyProject ctx1 (some cfgEmptyProject) stateInitialized).1
      = some ⟨"project id is empty"⟩
    ∧ stateInitialized.tp ≠ none
    ∧ (Initialize sdkRejectingEmptyProject ctx1 (some cfgEmptyProject) stateInitialized).2.tp
      = stateInitialized.tp
    ∧ (Initialize sdkRejectingEmptyProject ctx1 (some cfgEmptyProject)
        stateInitialized).2.globalTracerProvider = stateInitialized.globalTracerProvider :=
  ⟨rfl, by decide,
   (Initialize_error_installs_nothing sdkRejectingEmptyProject ctx1 (some cfgEmptyProject)
      stateInitialized ⟨"project id is empty"⟩ rfl).1,
   (Initialize_error_installs_nothing sdkRejectingEmptyProject ctx1 (some cfgEmptyProject)
      stateInitialized ⟨"project id is empty"⟩ rfl).2.1⟩

/-! ## Start before any Initialize -/

/-- C3 (what the code does): with the provider handle nil, `Start` reaches
the nil pointer dereference for every context and every name; no span is
returned. -/
theorem Start_nil_provider_panics (sdk : SDK) (ctx : Context) (name : String) (s : State)
    (h : s.tp = none) :
    Start sdk ctx name s = .error Panic.nilPointerDereference := by
  simp [Start, h]

/-- C3 at process start. -/
theorem Start_nil_provider_panics_witness :
    State.initial.tp = none
    ∧ Start sdkAccepting ctx0 "op1" State.initial = .error Panic.nilPointerDereference :=
  ⟨rfl, Start_nil_provider_panics sdkAccepting ctx0 "op1" State.initial rfl⟩

/-! ## Initialize with a nil config -/

/-- C4 as stated fails: after `Initialize` with the scenario config, a call
with a nil config builds the exporter with project id "proj1" and a timeout
option, the resource with service name "svc" and environment "test", and
leaves the tracer name "svc"; none of these is the zero value. -/
theorem Initialize_nil_config_not_zero :
    (callsBetween stateInitialized
        (Initialize sdkRejectingEmptyProject ctx1 none stateInitialized).2).head?
      = some (Call.texporterNew
          [ExporterOption.WithProjectID "proj1", ExporterOption.WithTimeout 5000000000])
    ∧ (callsBetween stateInitialized
        (Initialize sdkRejectingEmptyProject ctx1 none stateInitialized).2).head?
      ≠ some (Call.texporterNew [ExporterOption.WithProjectID ""])
    ∧ (callsBetween stateInitialized
        (Initialize sdkRejectingEmptyProject ctx1 none stateInitialized).2)[1]?
      = some (Call.resourceNew ctx1
          [ ResourceOption.WithDetectors [Detector.gcp],
            ResourceOption.WithAttributes
              [⟨"service.name", "svc"⟩, ⟨"deployment.environment", "test"⟩] ])
    ∧ (Initialize sdkRejectingEmptyProject ctx1 none stateInitialized).2.tracerName = "svc"
    ∧ (Initialize sdkRejectingEmptyProject ctx1 none stateInitialized).2.tracerName ≠ "" := by
  decide

/-- C4 amended: `Initialize` with a nil config overwrites none of the five
stored configuration fields.  The exporter is built with the stored project
id, followed by a timeout option carrying the stored timeout exactly when
that is positive; the resource carries the stored service name and the
stored deployment environment; the tracer name stays the stored one.  When
the prior state holds the zero values, as at process start, the exporter is
built with the empty project id and no timeout option, the resource carries
an empty service name and an empty deployment environment, and the tracer
name stays the empty string. -/
theorem Initialize_nil_config_uses_stored (sdk : SDK) (ctx : Context) (s : State) :
    ((Initialize sdk ctx none s).2.projectID = s.projectID
      ∧ (Initialize sdk ctx none s).2.serviceName = s.serviceName
      ∧ (Initialize sdk ctx none s).2.deploymentEnvironment = s.deploymentEnvironment
      ∧ (Initialize sdk ctx none s).2.tracerName = s.tracerName
      ∧ (Initialize sdk ctx none s).2.timeout = s.timeout)
    ∧ (callsBetween s (Initialize sdk ctx none s).2).head?
        = some (Call.texporterNew
            (if 0 < s.timeout then
              [ ExporterOption.WithProjectID s.projectID,
                ExporterOption.WithTimeout (durationOfSeconds s.timeout) ]
            else [ExporterOption.WithProjectID s.projectID]))
    ∧ (∀ x,
        sdk.texporterNew s.calls
            (if 0 < s.timeout then
              [ ExporterOption.WithProjectID s.projectID,
                ExporterOption.WithTimeout (durationOfSeconds s.timeout) ]
            else [ExporterOption.WithProjectID s.projectID]) = .ok x →
        (callsBetween s (Initialize sdk ctx none s).2)[1]?
          = some (Call.resourceNew ctx
              [ ResourceOption.WithDetectors [Detector.gcp],
                ResourceOption.WithAttributes
                  [ ⟨"service.name", s.serviceName⟩,
                    ⟨"deployment.environment", s.deploymentEnvironment⟩ ] ]))
    ∧ (s.projectID = "" → s.serviceName = "" → s.deploymentEnvironment = "" →
        s.tracerName = "" → s.timeout = 0 →
        (callsBetween s (Initialize sdk ctx none s).2).head?
          = some (Call.texporterNew [ExporterOption.WithProjectID ""])
        ∧ (∀ x, sdk.texporterNew s.calls [ExporterOption.WithProjectID ""] = .ok x →
            (callsBetween s (Initialize sdk ctx none s).2)[1]?
              = some (Call.resourceNew ctx
                  [ ResourceOption.WithDetectors [Detector.gcp],
                    ResourceOption.WithAttributes
                      [⟨"service.name", ""⟩, ⟨"deployment.environment", ""⟩] ]))
        ∧ (Initialize sdk ctx none s).2.tracerName = "") := by
  have hO : exporterOptions s
      = (if 0 < s.timeout then
          [ ExporterOption.WithProjectID s.projectID,
            ExporterOption.WithTimeout (durationOfSeconds s.timeout) ]
        else [ExporterOption.WithProjectID s.projectID]) := by
    simp only [exporterOptions, gt_iff_lt, List.nil_append]
    split <;> rfl
  have hR : resourceOptions s
      = [ ResourceOption.WithDetectors [Detector.gcp],
          ResourceOption.WithAttributes
            [ ⟨"service.name", s.serviceName⟩,
              ⟨"deployment.environment", s.deploymentEnvironment⟩ ] ] := rfl
  have key : ((Initialize sdk ctx none s).2.projectID = s.projectID
      ∧ (Initialize sdk ctx none s).2.serviceName = s.serviceName
      ∧ (Initialize sdk ctx none s).2.deploymentEnvironment = s.deploymentEnvironment
      ∧ (Initialize sdk ctx none s).2.tracerName = s.tracerName
      ∧ (Initialize sdk ctx none s).2.timeout = s.timeout)
    ∧ (callsBetween s (Initialize sdk ctx none s).2).head?
        = some (Call.texporterNew (exporterOptions s))
    ∧ (∀ x, sdk.texporterNew s.calls (exporterOptions s) = .ok x →
        (callsBetween s (Initialize sdk ctx none s).2)[1]?
          = some (Call.resourceNew ctx (resourceOptions s))) := by
    cases he : sdk.texporterNew s.calls (exporterOptions (storeConfig none s)) with
    | error e1 =>
      have hI := Initialize_of_exporter_error sdk ctx none s e1 he
      have hc : callsBetween s (Initialize sdk ctx none s).2 = _ :=
        callsBetween_of_append s _ _ (by rw [hI])
      rw [hc, hI]
      refine ⟨⟨rfl, rfl, rfl, rfl, rfl⟩, rfl, ?_⟩
      intro x hx
      rw [show exporterOptions s = exporterOptions (storeConfig none s) from rfl, he] at hx
      cases hx
    | ok x =>
      cases hr : sdk.resourceNew
          (s.calls ++ [Call.texporterNew (exporterOptions (storeConfig none s))])
          ctx (resourceOptions (storeConfig none s)) with
      | error e2 =>
        have hI := Initialize_of_resource_error sdk ctx none s x e2 he hr
        have hc : callsBetween s (Initialize sdk ctx none s).2 = _ :=
          callsBetween_of_append s _ _ (by rw [hI])
        rw [hc, hI]
        exact ⟨⟨rfl, rfl, rfl, rfl, rfl⟩, rfl, fun _ _ => rfl⟩
      | ok y =>
        have hI := Initialize_of_ok sdk ctx none s x y he hr
        have hc : callsBetween s (Initialize sdk ctx none s).2 = _ :=
          callsBetween_of_append s _ _ (by rw [hI])
        rw [hc, hI]
        exact ⟨⟨rfl, rfl, rfl, rfl, rfl⟩, rfl, fun _ _ => rfl⟩
  rw [hO, hR] at key
  refine ⟨key.1, key.2.1, key.2.2, ?_⟩
  intro h1 h2 h3 h4 h5
  have hz : (if 0 < s.timeout then
        [ ExporterOption.WithProjectID s.projectID,
          ExporterOption.WithTimeout (durationOfSeconds s.timeout) ]
      else [ExporterOption.WithProjectID s.projectID])
      = [ExporterOption.WithProjectID ""] := by
    simp [h1, h5]
  refine ⟨?_, ?_, ?_⟩
  · rw [key.2.1, hz]
  · intro x hx
    rw [← hz] at hx
    rw [key.2.2 x hx, h2, h3]
  · rw [key.1.2.2.2.1, h4]

/-- C4 amended, at two prior states.  After `Initialize` with the scenario
config, a call with a nil config builds the exporter with project id "proj1"
and a timeout of 5000000000 nanoseconds, the resource with service name
"svc" and environment "test", and keeps the tracer name "svc".  At process
start the same call uses the zero values. -/
theorem Initialize_nil_config_uses_stored_witness :
    ((callsBetween stateInitialized
        (Initialize sdkAccepting ctx1 none stateInitialized).2).head?
      = some (Call.texporterNew
          [ExporterOption.WithProjectID "proj1", ExporterOption.WithTimeout 5000000000])
    ∧ (callsBetween stateInitialized
        (Initialize sdkAccepting ctx1 none stateInitialized).2)[1]?
      = some (Call.resourceNew ctx1
          [ ResourceOption.WithDetectors [Detector.gcp],
            ResourceOption.WithAttributes
              [⟨"service.name", "svc"⟩, ⟨"deployment.environment", "test"⟩] ])
    ∧ (Initialize sdkAccepting ctx1 none stateInitialized).2.tracerName = "svc"
    ∧ (Initialize sdkAccepting ctx1 none stateInitialized).2.projectID = "proj1"
    ∧ (Initialize sdkAccepting ctx1 none stateInitialized).2.timeout = 5)
    ∧ ((callsBetween State.initial (Initialize sdkAccepting ctx0 none State.initial).2).head?
      = some (Call.texporterNew [ExporterOption.WithProjectID ""])
    ∧ (callsBetween State.initial (Initialize sdkAccepting ctx0 none State.initial).2)[1]?
      = some (Call.resourceNew ctx0
          [ ResourceOption.WithDetectors [Detector.gcp],
            ResourceOption.WithAttributes
              [⟨"service.name", ""⟩, ⟨"deployment.environment", ""⟩] ])
    ∧ (Initialize sdkAccepting ctx0 none State.initial).2.tracerName = "") :=
  ⟨⟨(Initialize_nil_config_uses_stored sdkAccepting ctx1 stateInitialized).2.1,
    (Initialize_nil_config_uses_stored sdkAccepting ctx1 stateInitialized).2.2.1 ⟨5⟩ rfl,
    (Initialize_nil_config_uses_stored sdkAccepting ctx1 stateInitialized).1.2.2.2.1,
    (Initialize_nil_config_uses_stored sdkAccepting ctx1 stateInitialized).1.1,
    (Initialize_nil_config_uses_stored sdkAccepting ctx1 stateInitialized).1.2.2.2.2⟩,
   ⟨((Initialize_nil_config_uses_stored sdkAccepting ctx0 State.initial).2.2.2
      rfl rfl rfl rfl rfl).1,
    ((Initialize_nil_config_uses_stored sdkAccepting ctx0 State.initial).2.2.2
      rfl rfl rfl rfl rfl).2.1 ⟨0⟩ rfl,
    ((Initialize_nil_config_uses_stored sdkAccepting ctx0 State.initial).2.2.2
      rfl rfl rfl rfl rfl).2.2⟩⟩

/-! ## The exporter options -/

/-- C5: for a non-nil config `c`, the option list `Initialize` passes to
`texporter.New` is the project-id option carrying `c.ProjectID`, followed by
a timeout option exactly when `c.TimeoutInSeconds > 0`; otherwise the list
is the project-id option alone.  First conjunct: the call as made; second:
the option list as `Initialize` builds it, at which `texporter.New` is asked. -/
theorem Initialize_exporter_options (sdk : SDK) (ctx : Context) (c : Config) (s : State) :
    (callsBetween s (Initialize sdk ctx (some c) s).2).head?
      = some (Call.texporterNew
          (if 0 < c.TimeoutInSeconds then
            [ ExporterOption.WithProjectID c.ProjectID,
              ExporterOption.WithTimeout (durationOfSeconds c.TimeoutInSeconds) ]
          else [ExporterOption.WithProjectID c.ProjectID]))
    ∧ exporterOptions (storeConfig (some c) s)
      = (if 0 < c.TimeoutInSeconds then
          [ ExporterOption.WithProjectID c.ProjectID,
            ExporterOption.WithTimeout (durationOfSeconds c.TimeoutInSeconds) ]
        else [ExporterOption.WithProjectID c.ProjectID]) := by
  refine ⟨?_, exporterOptions_storeConfig_some c s⟩
  rw [Initialize_first_call, exporterOptions_storeConfig_some]

/-- C9 as stated fails: with `TimeoutInSeconds = 9223372037`, a positive
`int64`, the duration passed to the exporter is `-9223372036709551616`
nanoseconds: negative, and not `9223372037 * 10^9`. -/
theorem Initialize_timeout_wraps :
    0 < cfgHugeTimeout.TimeoutInSeconds
    ∧ cfgHugeTimeout.TimeoutInSeconds ≤ maxInt64
    ∧ (callsBetween State.initial
        (Initialize sdkAccepting ctx0 (some cfgHugeTimeout) State.initial).2).head?
      = some (Call.texporterNew
          [ ExporterOption.WithProjectID "proj1",
            ExporterOption.WithTimeout (-9223372036709551616) ])
    ∧ (-9223372036709551616 : Int) ≠ cfgHugeTimeout.TimeoutInSeconds * 10 ^ 9
    ∧ (-9223372036709551616 : Int) < 0 := by
  decide

/-- C9 amended: for a config with `0 < TimeoutInSeconds = t`,
`Initialize` passes a timeout option carrying `time.Duration(t)*time.Second`.
For `t ≤ 9223372036` that duration is exactly `t * 10^9` nanoseconds and
positive (the product does not wrap); for larger `t` the product wraps and
the duration passed is not `t * 10^9`. -/
theorem Initialize_timeout_duration (sdk : SDK) (ctx : Context) (c : Config) (s : State)
    (hpos : 0 < c.TimeoutInSeconds) :
    (callsBetween s (Initialize sdk ctx (some c) s).2).head?
      = some (Call.texporterNew
          [ ExporterOption.WithProjectID c.ProjectID,
            ExporterOption.WithTimeout (durationOfSeconds c.TimeoutInSeconds) ])
    ∧ (c.TimeoutInSeconds ≤ 9223372036 →
        durationOfSeconds c.TimeoutInSeconds = c.TimeoutInSeconds * 10 ^ 9
        ∧ 0 < durationOfSeconds c.TimeoutInSeconds)
    ∧ (9223372036 < c.TimeoutInSeconds →
        durationOfSeconds c.TimeoutInSeconds ≠ c.TimeoutInSeconds * 10 ^ 9) := by
  refine ⟨?_, ?_, ?_⟩
  · rw [Initialize_first_call, exporterOptions_storeConfig_some, if_pos hpos]
  · intro hle
    have hw : durationOfSeconds c.TimeoutInSeconds = c.TimeoutInSeconds * 10 ^ 9 := by
      unfold durationOfSeconds Second
      rw [wrapInt64_of_fits]
      · norm_num
      · simp only [minInt64]; omega
      · simp only [maxInt64]; omega
    rw [hw]
    exact ⟨rfl, by omega⟩
  · intro hgt hEq
    have hr := (wrapInt64_range (c.TimeoutInSeconds * Second)).2
    unfold durationOfSeconds at hEq
    rw [hEq] at hr
    simp only [maxInt64] at hr
    omega

/-- C9 amended, at the scenario config: five seconds are 5000000000 nanoseconds. -/
theorem Initialize_timeout_duration_witness :
    (callsBetween State.initial
        (Initialize sdkAccepting ctx0 (some cfgScenario) State.initial).2).head?
      = some (Call.texporterNew
          [ ExporterOption.WithProjectID "proj1",
            ExporterOption.WithTimeout (durationOfSeconds 5) ])
    ∧ durationOfSeconds 5 = 5 * 10 ^ 9
    ∧ 0 < durationOfSeconds 5 :=
  ⟨(Initialize_timeout_duration sdkAccepting ctx0 cfgScenario State.initial
      (by decide)).1,
   ((Initialize_timeout_duration sdkAccepting ctx0 cfgScenario State.initial
      (by decide)).2.1 (by decide)).1,
   ((Initialize_timeout_duration sdkAccepting ctx0 cfgScenario State.initial
      (by decide)).2.1 (by decide)).2⟩

/-! ## Initialize: what a successful call installs -/

/-- C6: when `Initialize` succeeds, the exporter `x` and the resource `y`
were built in this call, the resource from GCP detection plus the two
attributes `service.name` and `deployment.environment` carrying the stored
service name and deployment environment; the provider handle is a provider
constructed in this call, at an address no earlier provider has, with the
always-sample sampler, a batcher over `x` and the resource `y`; that provider
is the process-wide tracer provider; the process-wide propagator is the
composite of trace-context followed by baggage.  The calls made are these
five and no other, so a prior handle is replaced without a `Shutdown`. -/
theorem Initialize_success_installs (sdk : SDK) (ctx : Context) (c : Option Config)
    (s : State) (h : (Initialize sdk ctx c s).1 = none) :
    ∃ x y,
      sdk.texporterNew s.calls (exporterOptions (storeConfig c s)) = .ok x
      ∧ sdk.resourceNew (s.calls ++ [Call.texporterNew (exporterOptions (storeConfig c s))]) ctx
          [ ResourceOption.WithDetectors [Detector.gcp],
            ResourceOption.WithAttributes
              [ ⟨"service.name", (Initialize sdk ctx c s).2.serviceName⟩,
                ⟨"deployment.environment",
                  (Initialize sdk ctx c s).2.deploymentEnvironment⟩ ] ] = .ok y
      ∧ (Initialize sdk ctx c s).2.tp
          = some ⟨freshAddr s.calls,
              [ TracerProviderOption.WithSampler Sampler.AlwaysSample,
                TracerProviderOption.WithBatcher x,
                TracerProviderOption.WithResource y ]⟩
      ∧ (Initialize sdk ctx c s).2.globalTracerProvider = (Initialize sdk ctx c s).2.tp
      ∧ (Initialize sdk ctx c s).2.globalPropagator
          = some (NewCompositeTextMapPropagator [Propagator.TraceContext, Propagator.Baggage])
      ∧ callsBetween s (Initialize sdk ctx c s).2
          = [ Call.texporterNew (exporterOptions (storeConfig c s)),
              Call.resourceNew ctx
                [ ResourceOption.WithDetectors [Detector.gcp],
                  ResourceOption.WithAttributes
                    [ ⟨"service.name", (Initialize sdk ctx c s).2.serviceName⟩,
                      ⟨"deployment.environment",
                        (Initialize sdk ctx c s).2.deploymentEnvironment⟩ ] ],
              Call.NewTracerProvider
                [ TracerProviderOption.WithSampler Sampler.AlwaysSample,
                  TracerProviderOption.WithBatcher x,
                  TracerProviderOption.WithResource y ],
              Call.SetTracerProvider ⟨freshAddr s.calls,
                [ TracerProviderOption.WithSampler Sampler.AlwaysSample,
                  TracerProviderOption.WithBatcher x,
                  TracerProviderOption.WithResource y ]⟩,
              Call.SetTextMapPropagator
                (NewCompositeTextMapPropagator [Propagator.TraceContext, Propagator.Baggage]) ]
      ∧ (callsBetween s (Initialize sdk ctx c s).2).countP Call.isShutdown = 0
      ∧ (∀ q, s.tp = some q → q.addr < freshAddr s.calls →
          (Initialize sdk ctx c s).2.tp ≠ s.tp) := by
  cases he : sdk.texporterNew s.calls (exporterOptions (storeConfig c s)) with
  | error e1 =>
    rw [Initialize_of_exporter_error sdk ctx c s e1 he] at h
    cases h
  | ok x =>
    cases hr : sdk.resourceNew
        (s.calls ++ [Call.texporterNew (exporterOptions (storeConfig c s))])
        ctx (resourceOptions (storeConfig c s)) with
    | error e2 =>
      rw [Initialize_of_resource_error sdk ctx c s x e2 he hr] at h
      cases h
    | ok y =>
      have hI := Initialize_of_ok sdk ctx c s x y he hr
      have hc : callsBetween s (Initialize sdk ctx c s).2 = _ :=
        callsBetween_of_append s _ _ (by rw [hI])
      rw [hc, hI]
      refine ⟨x, y, rfl, hr, rfl, rfl, rfl, rfl, rfl, ?_⟩
      intro q hq hlt heq
      rw [hq] at heq
      have hqa : q.addr = freshAddr s.calls := by
        have := Option.some.inj heq
        rw [← this]
      omega

/-- C6 at a concrete input: a second successful `Initialize` replaces the
provider of the first (address 0) by a new one (address 1) without a
`Shutdown` call. -/
theorem Initialize_success_installs_witness :
    ∃ x y,
      sdkAccepting.texporterNew stateInitialized.calls
          (exporterOptions (storeConfig (some cfgScenario) stateInitialized)) = .ok x
      ∧ (Initialize sdkAccepting ctx1 (some cfgScenario) stateInitialized).2.tp
          = some ⟨1,
              [ TracerProviderOption.WithSampler Sampler.AlwaysSample,
                TracerProviderOption.WithBatcher x,
                TracerProviderOption.WithResource y ]⟩
      ∧ (callsBetween stateInitialized
          (Initialize sdkAccepting ctx1 (some cfgScenario) stateInitialized).2).countP
            Call.isShutdown = 0
      ∧ (Initialize sdkAccepting ctx1 (some cfgScenario) stateInitialized).2.tp
          ≠ stateInitialized.tp :=
  match Initialize_success_installs sdkAccepting ctx1 (some cfgScenario) stateInitialized rfl with
  | ⟨x, y, hx, _, htp, _, _, _, hsd, hne⟩ =>
    ⟨x, y, hx, htp, hsd, hne _ rfl (by decide)⟩

/-! ## Start after a successful Initialize -/

/-- C7: after `Initialize(ctx0, c)` succeeds with a non-nil `c`, the provider
`p` it installed is present, and `Start(ctx, n)` asks `p` for the tracer named
`c.TracerName`, asks that tracer to start a span named `n` under `ctx`, and
returns the span of the tracer's answer, its derived context dropped.  The
state after `Start` differs from the state before only in the record of
calls, which gained these two. -/
theorem Start_after_Initialize (sdk : SDK) (ctx0 : Context) (c : Config) (s : State)
    (ctx : Context) (n : String) (h : (Initialize sdk ctx0 (some c) s).1 = none) :
    ∃ p,
      (Initialize sdk ctx0 (some c) s).2.tp = some p
      ∧ (Initialize sdk ctx0 (some c) s).2.globalTracerProvider = some p
      ∧ Start sdk ctx n (Initialize sdk ctx0 (some c) s).2
          = .ok
            ((sdk.tracerStart
                ((Initialize sdk ctx0 (some c) s).2.calls ++ [Call.Tracer p c.TracerName])
                (sdk.providerTracer (Initialize sdk ctx0 (some c) s).2.calls p c.TracerName)
                ctx n).2,
             { (Initialize sdk ctx0 (some c) s).2 with
               calls := (Initialize sdk ctx0 (some c) s).2.calls ++
                 [ Call.Tracer p c.TracerName,
                   Call.TracerStart
                     (sdk.providerTracer (Initialize sdk ctx0 (some c) s).2.calls p
                       c.TracerName)
                     ctx n ] }) := by
  obtain ⟨p, htp, hg⟩ := Initialize_ok_provider sdk ctx0 (some c) s h
  have hn : (Initialize sdk ctx0 (some c) s).2.tracerName = c.TracerName :=
    (Initialize_config_fields sdk ctx0 (some c) s).2.2.2.1
  refine ⟨p, htp, hg, ?_⟩
  rw [Start_of_some sdk ctx n _ _ htp]
  simp only [hn]

/-- C7 at the scenario of the spec: `Start(ctx1, "op1")` after a successful
`Initialize` with tracer name "svc". -/
theorem Start_after_Initialize_witness :
    ∃ p,
      stateInitialized.tp = some p
      ∧ Start sdkRejectingEmptyProject ctx1 "op1" stateInitialized
          = .ok (⟨6⟩,
              { stateInitialized with
                calls := stateInitialized.calls ++
                  [Call.Tracer p "svc", Call.TracerStart ⟨5⟩ ctx1 "op1"] }) :=
  match Start_after_Initialize sdkRejectingEmptyProject ctx0 cfgScenario State.initial
      ctx1 "op1" rfl with
  | ⟨p, hp, _, hs⟩ => ⟨p, hp, hs⟩

/-! ## Finalize -/

/-- C8: with a provider `p` installed, `Finalize(ctx)` makes one call,
`p.Shutdown(ctx)`, and changes nothing else; with none installed it makes no
call and changes nothing.  The outcome does not depend on what the
collaborators answer, so the error of `Shutdown` is dropped.  The provider
handle and the five configuration variables are left as they were, so a
second `Finalize(ctx2)` does the same again: one more `p.Shutdown(ctx2)`, or
nothing. -/
theorem Finalize_effect (sdk : SDK) (ctx : Context) (s : State) :
    (∀ p, s.tp = some p →
        Finalize sdk ctx s = { s with calls := s.calls ++ [Call.Shutdown p ctx] }
        ∧ (callsBetween s (Finalize sdk ctx s)).countP Call.isShutdown = 1)
    ∧ (s.tp = none → Finalize sdk ctx s = s)
    ∧ (∀ sdk2 : SDK, Finalize sdk2 ctx s = Finalize sdk ctx s)
    ∧ ((Finalize sdk ctx s).tp = s.tp
        ∧ (Finalize sdk ctx s).projectID = s.projectID
        ∧ (Finalize sdk ctx s).serviceName = s.serviceName
        ∧ (Finalize sdk ctx s).deploymentEnvironment = s.deploymentEnvironment
        ∧ (Finalize sdk ctx s).tracerName = s.tracerName
        ∧ (Finalize sdk ctx s).timeout = s.timeout
        ∧ (Finalize sdk ctx s).globalTracerProvider = s.globalTracerProvider
        ∧ (Finalize sdk ctx s).globalPropagator = s.globalPropagator)
    ∧ (∀ ctx2 p, s.tp = some p →
        Finalize sdk ctx2 (Finalize sdk ctx s)
          = { s with calls := s.calls ++ [Call.Shutdown p ctx, Call.Shutdown p ctx2] })
    ∧ (∀ ctx2, s.tp = none → Finalize sdk ctx2 (Finalize sdk ctx s) = s) := by
  obtain hn | ⟨q, hq⟩ : s.tp = none ∨ ∃ q, s.tp = some q := by
    cases s.tp <;> simp
  · have hF : ∀ (k : SDK) (cx : Context), Finalize k cx s = s := by
      intro k cx
      simp only [Finalize, hn]
    refine ⟨?_, ?_, ?_, ?_, ?_, ?_⟩
    · intro p hp
      rw [hn] at hp
      cases hp
    · intro _
      exact hF sdk ctx
    · intro sdk2
      rw [hF sdk2 ctx, hF sdk ctx]
    · rw [hF sdk ctx]
      exact ⟨rfl, rfl, rfl, rfl, rfl, rfl, rfl, rfl⟩
    · intro ctx2 p hp
      rw [hn] at hp
      cases hp
    · intro ctx2 _
      rw [hF sdk ctx, hF sdk ctx2]
  · have hF : ∀ (k : SDK) (cx : Context) (t : State), t.tp = some q →
        Finalize k cx t = { t with calls := t.calls ++ [Call.Shutdown q cx] } := by
      intro k cx t ht
      simp only [Finalize, ht]
    refine ⟨?_, ?_, ?_, ?_, ?_, ?_⟩
    · intro p hp
      rw [hq] at hp
      cases hp
      refine ⟨hF sdk ctx s hq, ?_⟩
      rw [callsBetween_of_append s _ [Call.Shutdown q ctx] (by rw [hF sdk ctx s hq])]
      rfl
    · intro hn
      rw [hq] at hn
      cases hn
    · intro sdk2
      rw [hF sdk2 ctx s hq, hF sdk ctx s hq]
    · rw [hF sdk ctx s hq]
      exact ⟨rfl, rfl, rfl, rfl, rfl, rfl, rfl, rfl⟩
    · intro ctx2 p hp
      rw [hq] at hp
      cases hp
      have h2 := hF sdk ctx2 { s with calls := s.calls ++ [Call.Shutdown q ctx] } hq
      rw [hF sdk ctx s hq, h2]
      simp only [List.append_assoc, List.singleton_append]
    · intro ctx2 hn
      rw [hq] at hn
      cases hn

/-- C8 at concrete inputs: after the scenario `Initialize`, two `Finalize`
calls with a collaborator whose `Shutdown` returns an error make two
`Shutdown` calls on the same provider and return; at process start
`Finalize` changes nothing. -/
theorem Finalize_effect_witness :
    sdkResourceFailing.providerShutdown [] ⟨0, []⟩ ctx0 = some ⟨"shutdown failed"⟩
    ∧ (callsBetween stateInitialized
        (Finalize sdkResourceFailing ctx0 stateInitialized)).countP Call.isShutdown = 1
    ∧ (∃ p, stateInitialized.tp = some p
        ∧ Finalize sdkResourceFailing ctx1 (Finalize sdkResourceFailing ctx0 stateInitialized)
          = { stateInitialized with
              calls := stateInitialized.calls ++ [Call.Shutdown p ctx0, Call.Shutdown p ctx1] })
    ∧ Finalize sdkResourceFailing ctx0 State.initial = State.initial :=
  ⟨rfl,
   ((Finalize_effect sdkResourceFailing ctx0 stateInitialized).1 _ rfl).2,
   ⟨_, rfl, (Finalize_effect sdkResourceFailing ctx0 stateInitialized).2.2.2.2.1 ctx1 _ rfl⟩,
   (Finalize_effect sdkResourceFailing ctx0 State.initial).2.1 rfl⟩

/-! ## Initialize: the stored configuration -/

/-- C10: for a non-nil config `c`, after `Initialize` returns, with success
or with an error, the five stored configuration fields are those of `c`.
A call that returns an error leaves the provider handle as it was, yet a
later `Start` asks the provider that is installed for the tracer named
`c.TracerName`, and a later `Initialize` with a nil config builds its
exporter options from `c.ProjectID` and `c.TimeoutInSeconds`. -/
theorem Initialize_stores_config (sdk : SDK) (ctx : Context) (c : Config) (s : State) :
    ((Initialize sdk ctx (some c) s).2.projectID = c.ProjectID
      ∧ (Initialize sdk ctx (some c) s).2.serviceName = c.ServiceName
      ∧ (Initialize sdk ctx (some c) s).2.deploymentEnvironment = c.DeploymentEnvironment
      ∧ (Initialize sdk ctx (some c) s).2.tracerName = c.TracerName
      ∧ (Initialize sdk ctx (some c) s).2.timeout = c.TimeoutInSeconds)
    ∧ (∀ err, (Initialize sdk ctx (some c) s).1 = some err →
        (Initialize sdk ctx (some c) s).2.tp = s.tp)
    ∧ (∀ p ctx2 n, (Initialize sdk ctx (some c) s).2.tp = some p →
        ∃ r, Start sdk ctx2 n (Initialize sdk ctx (some c) s).2 = .ok r
          ∧ (callsBetween (Initialize sdk ctx (some c) s).2 r.2).head?
              = some (Call.Tracer p c.TracerName))
    ∧ (∀ ctx2,
        (callsBetween (Initialize sdk ctx (some c) s).2
            (Initialize sdk ctx2 none (Initialize sdk ctx (some c) s).2).2).head?
          = some (Call.texporterNew
              (if 0 < c.TimeoutInSeconds then
                [ ExporterOption.WithProjectID c.ProjectID,
                  ExporterOption.WithTimeout (durationOfSeconds c.TimeoutInSeconds) ]
              else [ExporterOption.WithProjectID c.ProjectID]))) := by
  have hf := Initialize_config_fields sdk ctx (some c) s
  refine ⟨hf, ?_, ?_, ?_⟩
  · intro err herr
    cases he : sdk.texporterNew s.calls (exporterOptions (storeConfig (some c) s)) with
    | error e1 =>
      rw [Initialize_of_exporter_error sdk ctx (some c) s e1 he]
      rfl
    | ok x =>
      cases hr : sdk.resourceNew
          (s.calls ++ [Call.texporterNew (exporterOptions (storeConfig (some c) s))])
          ctx (resourceOptions (storeConfig (some c) s)) with
      | error e2 =>
        rw [Initialize_of_resource_error sdk ctx (some c) s x e2 he hr]
        rfl
      | ok y =>
        rw [Initialize_of_ok sdk ctx (some c) s x y he hr] at herr
        cases herr
  · intro p ctx2 n hp
    refine ⟨_, Start_of_some sdk ctx2 n _ p hp, ?_⟩
    rw [callsBetween_of_append _ _ _ rfl, hf.2.2.2.1]
    rfl
  · intro ctx2
    rw [Initialize_first_call]
    have ho : exporterOptions (storeConfig none (Initialize sdk ctx (some c) s).2)
        = exporterOptions (storeConfig (some c) s) := by
      simp only [exporterOptions, storeConfig, hf.1, hf.2.2.2.2]
    rw [ho, exporterOptions_storeConfig_some]

/-- C10 at a concrete input: after the scenario `Initialize`, a call with
another config fails in exporter construction; the provider handle is the
old one, and `Start` now asks it for the tracer named "other". -/
theorem Initialize_stores_config_witness :
    (Initialize sdkRejectingEmptyProject ctx1 (some cfgEmptyProject) stateInitialized).1
      = some ⟨"project id is empty"⟩
    ∧ (Initialize sdkRejectingEmptyProject ctx1 (some cfgEmptyProject) stateInitialized).2.tp
      = stateInitialized.tp
    ∧ stateInitialized.tracerName = "svc"
    ∧ (Initialize sdkRejectingEmptyProject ctx1 (some cfgEmptyProject)
        stateInitialized).2.tracerName = "other"
    ∧ (∃ p r,
        Start sdkRejectingEmptyProject ctx1 "op1"
          (Initialize sdkRejectingEmptyProject ctx1 (some cfgEmptyProject) stateInitialized).2
            = .ok r
        ∧ (callsBetween
            (Initialize sdkRejectingEmptyProject ctx1 (some cfgEmptyProject) stateInitialized).2
            r.2).head? = some (Call.Tracer p "other")) :=
  ⟨rfl,
   (Initialize_stores_config sdkRejectingEmptyProject ctx1 cfgEmptyProject
      stateInitialized).2.1 _ rfl,
   rfl,
   (Initialize_stores_config sdkRejectingEmptyProject ctx1 cfgEmptyProject
      stateInitialized).1.2.2.2.1,
   match (Initialize_stores_config sdkRejectingEmptyProject ctx1 cfgEmptyProject
      stateInitialized).2.2.1 _ ctx1 "op1" rfl with
   | ⟨r, hr, hc⟩ => ⟨_, r, hr, hc⟩⟩

end Tracing
